import Mathlib

/-!
Shallow embedding of the connection-lifecycle manager and command router of
the TP4 storefront bot (variants: `src/telao3/index.js`, `src/unnamed/part_000`,
and the two variants inside `src/unnamed/part_001`; the last of these — the
one with exponential backoff, a retry cap, the `qrSent` guard and the group
readiness cache — is referred to below as the "backoff variant").

JS strings are modelled by Lean `String`; the JS string operations used by the
source (`startsWith`, `endsWith`, `trim`, `toLowerCase`, `includes` on arrays)
are re-implemented structurally over the character list so that every
definition evaluates by kernel reduction.  Millisecond delays computed with
JS floating point (`Math.min(5000 * Math.pow(1.5, n-1), 30000)`) are modelled
over `ℚ`; every value the program actually computes has denominator a power
of two, so the rational model is exact.
-/

namespace TP4

/-- JS `s.startsWith(pre)` over character lists. -/
def listStartsWith : List Char → List Char → Bool
  | _, [] => true
  | [], _ :: _ => false
  | c :: cs, p :: ps => c == p && listStartsWith cs ps

/-- JS `s.startsWith(pre)`. -/
def jsStartsWith (s pre : String) : Bool :=
  listStartsWith s.data pre.data

/-- JS `s.endsWith(suf)`. -/
def jsEndsWith (s suf : String) : Bool :=
  listStartsWith s.data.reverse suf.data.reverse

/-- Whitespace recognised by the model of JS `trim`. -/
def isWs (c : Char) : Bool :=
  c == ' ' || c == '\t' || c == '\n' || c == '\r'

/-- JS `s.trim()`. -/
def jsTrim (s : String) : String :=
  ⟨((s.data.dropWhile isWs).reverse.dropWhile isWs).reverse⟩

/-- JS `s.toLowerCase()` (ASCII range, which covers every command literal). -/
def jsToLower (s : String) : String :=
  ⟨s.data.map Char.toLower⟩

/-- The bidirectional-control / invisible characters stripped by the router:
`/[\u200e\u200f\u2068\u2069]/g`. -/
def isInvisible (c : Char) : Bool :=
  c == '\u200E' || c == '\u200F' || c == '\u2068' || c == '\u2069'

/-- `messageText` normalization of `processMessage`:
`.replace(/[\u200e\u200f\u2068\u2069]/g, "").trim()` followed by
`.toLowerCase()` for matching. -/
def normalizeText (s : String) : String :=
  jsToLower (jsTrim ⟨s.data.filter (fun c => !isInvisible c)⟩)

/-- A buffered outbound reply: `{ jid, msg }` in `pendingMessages`. -/
structure PendingReply where
  jid : String
  payload : String
deriving DecidableEq, Repr

/-- `processPendingMessages` of the telao3 / part_000 / early part_001
variants: iterate the queue in FIFO order, attempt each send (a failure is
logged and the entry dropped), then assign `pendingMessages = []`.  The
delivery oracle `d` tells whether `sock.sendMessage` succeeds for an entry.
Returns the list of attempted deliveries (entry, outcome) in order, and the
queue afterwards. -/
def processPendingMessagesT3 (d : PendingReply → Bool) (q : List PendingReply) :
    List (PendingReply × Bool) × List PendingReply :=
  (q.map fun r => (r, d r), [])

/-- `processPendingMessages` of the backoff variant (part_001, lines 758-770):
identical except for the `if (pendingMessages.length > 0)` guard. -/
def processPendingMessages (d : PendingReply → Bool) (q : List PendingReply) :
    List (PendingReply × Bool) × List PendingReply :=
  if q.length > 0 then processPendingMessagesT3 d q else ([], q)

/-- Connectivity states carried by a `connection.update` event
(`"close"`, `"open"`, `"connecting"`). -/
inductive ConnState where
  | closed
  | opened
  | connecting
deriving DecidableEq, Repr

/-- One `connection.update` payload: `{ connection, lastDisconnect, qr }`.
`closeReason` is the Boom status code extracted from `lastDisconnect`;
`qr = true` models a present `qr` field (a scan-required signal). -/
structure ConnUpdate where
  connection : Option ConnState
  closeReason : Option Nat
  qr : Bool
deriving DecidableEq, Repr

/-- `DisconnectReason.loggedOut` (Baileys status code 401). -/
def loggedOutCode : Nat := 401

/-- Externally visible actions taken by a `connection.update` handler. -/
inductive SupAction where
  /-- render the QR credential code (`QRCode.toDataURL` + log). -/
  | emitQRCode
  /-- one delivery attempt `sock.sendMessage(jid, msg)` out of the flush. -/
  | attemptSend (r : PendingReply)
  /-- `setTimeout(() => iniciarBot(...), delayMs)`. -/
  | scheduleRestart (delayMs : ℚ)
  /-- `process.exit(code)`. -/
  | exitProcess (code : Nat)
  /-- `syncAuthToSupabase()` after reaching open. -/
  | syncCreds
deriving DecidableEq, Repr

/-- `true` exactly on `SupAction.emitQRCode`. -/
def SupAction.isEmitQR : SupAction → Bool
  | .emitQRCode => true
  | _ => false

/-- `true` exactly on `SupAction.scheduleRestart _`. -/
def SupAction.isSchedule : SupAction → Bool
  | .scheduleRestart _ => true
  | _ => false

/-- `true` exactly on `SupAction.exitProcess _`. -/
def SupAction.isExit : SupAction → Bool
  | .exitProcess _ => true
  | _ => false

/-- The pending-reply carried by an `attemptSend` action, if any. -/
def SupAction.sendOf : SupAction → Option PendingReply
  | .attemptSend r => some r
  | _ => none

/-- Module-level mutable state of the backoff variant relevant to the
connection lifecycle: `pendingMessages`, `authReady`, `qrSent`,
`reconnectAttempts`, plus whether the local credential folder exists
(`credsPresent` models the presence of `AUTH_FOLDER`). -/
structure SupState where
  pendingMessages : List PendingReply
  authReady : Bool
  qrSent : Bool
  reconnectAttempts : Nat
  credsPresent : Bool
deriving DecidableEq, Repr

/-- `MAX_RECONNECT_ATTEMPTS` of the backoff variant. -/
def MAX_RECONNECT_ATTEMPTS : Nat := 10

/-- `RECONNECT_DELAY` (ms) of the backoff variant. -/
def RECONNECT_DELAY : ℚ := 5000

/-- `Math.min(RECONNECT_DELAY * Math.pow(1.5, attempts - 1), 30000)` for the
post-increment attempt count `attempts`. -/
def reconnectDelay (attempts : Nat) : ℚ :=
  min (RECONNECT_DELAY * ((3 : ℚ) / 2) ^ (attempts - 1)) 30000

/-- The `connection.update` handler of the backoff variant
(`src/unnamed/part_001`, lines 772-823).  `d` is the delivery oracle used by
the flush on reaching open.  Returns the new module state and the externally
visible actions in program order. -/
def connectionUpdateBackoff (d : PendingReply → Bool) (st : SupState)
    (u : ConnUpdate) : SupState × List SupAction :=
  -- `if (qr && !qrSent) { qrSent = true; reconnectAttempts = 0; ...emit... }`
  let st1 := if u.qr && !st.qrSent then
    { st with qrSent := true, reconnectAttempts := 0 } else st
  let acts1 : List SupAction :=
    if u.qr && !st.qrSent then [.emitQRCode] else []
  match u.connection with
  | some .closed =>
    -- `reconnectAttempts++` then the exponential delay, then the branches
    let attempts := st1.reconnectAttempts + 1
    let delay := reconnectDelay attempts
    if u.closeReason = some loggedOutCode then
      -- discard AUTH_FOLDER, reset counter, restart after a fixed 3000 ms
      ({ st1 with credsPresent := false, reconnectAttempts := 0 },
       acts1 ++ [.scheduleRestart 3000])
    else if MAX_RECONNECT_ATTEMPTS < attempts then
      ({ st1 with reconnectAttempts := attempts },
       acts1 ++ [.exitProcess 1])
    else
      ({ st1 with reconnectAttempts := attempts, authReady := false },
       acts1 ++ [.scheduleRestart delay])
  | some .opened =>
    -- `authReady = true; reconnectAttempts = 0; processPendingMessages(); syncAuthToSupabase()`
    let flushed := processPendingMessages d st1.pendingMessages
    ({ st1 with authReady := true, reconnectAttempts := 0,
                pendingMessages := flushed.2 },
     acts1 ++ flushed.1.map (fun p => .attemptSend p.1) ++ [.syncCreds])
  | some .connecting => (st1, acts1)
  | none => (st1, acts1)

/-- Module-level state of the telao3 variant (no `qrSent` guard, no attempt
counter). -/
structure T3State where
  pendingMessages : List PendingReply
  authReady : Bool
  credsPresent : Bool
deriving DecidableEq, Repr

/-- The `connection.update` handler of `src/telao3/index.js` (lines 105-134):
every `qr` field is emitted (no guard), a logout closure calls
`process.exit(0)` without touching credentials, any other closure schedules a
restart after a flat 3000 ms, and open flushes the queue. -/
def connectionUpdateTelao3 (d : PendingReply → Bool) (st : T3State)
    (u : ConnUpdate) : T3State × List SupAction :=
  let acts1 : List SupAction := if u.qr then [.emitQRCode] else []
  match u.connection with
  | some .closed =>
    if u.closeReason = some loggedOutCode then
      (st, acts1 ++ [.exitProcess 0])
    else
      (st, acts1 ++ [.scheduleRestart 3000])
  | some .opened =>
    let flushed := processPendingMessagesT3 d st.pendingMessages
    ({ st with authReady := true, pendingMessages := flushed.2 },
     acts1 ++ flushed.1.map (fun p => .attemptSend p.1))
  | some .connecting => (st, acts1)
  | none => (st, acts1)

/-- Iterate `connectionUpdateBackoff` over a list of updates, collecting the
per-event action lists. -/
def runConn (d : PendingReply → Bool) :
    SupState → List ConnUpdate → SupState × List (List SupAction)
  | st, [] => (st, [])
  | st, u :: us =>
    let r := connectionUpdateBackoff d st u
    let rest := runConn d r.1 us
    (rest.1, r.2 :: rest.2)

/-- The `qrSent = false` assignment at the top of `iniciarBot` in the
guarded variants: a new session instance re-arms QR emission. -/
def iniciarBotQrReset (st : SupState) : SupState :=
  { st with qrSent := false }

/-- `SENDER_COOLDOWN_MS` (60 seconds). -/
def SENDER_COOLDOWN_MS : Nat := 60000

/-- The warm-up text sent by the cached `ensureGroupReady`. -/
def warmupText : String := "🔐 Inicializando grupo..."

/-- Per-process group readiness cache: `senderReadyGroups` (a Set) and
`senderAttemptAt` (a Map from group id to the timestamp of the last warm-up
attempt; modelled as an association list where the newest binding is first). -/
structure GroupCache where
  senderReadyGroups : List String
  senderAttemptAt : List (String × Nat)
deriving DecidableEq, Repr

/-- `ensureGroupReady` of the backoff variant (`src/unnamed/part_001`,
lines 835-856): non-groups are always ready; a cached-ready group returns
true with no send; a group attempted less than `SENDER_COOLDOWN_MS` ago
returns false with no send; otherwise the attempt timestamp is recorded, one
warm-up send is attempted, and the group is marked ready on success.
`send` is the success oracle for `sock.sendMessage`; the third component
lists the warm-up sends attempted by this call. -/
def ensureGroupReady (send : String → Bool) (c : GroupCache)
    (groupId : String) (now : Nat) : Bool × GroupCache × List PendingReply :=
  if !(jsEndsWith groupId "@g.us") then (true, c, [])
  else if c.senderReadyGroups.contains groupId then (true, c, [])
  else
    let lastAttempt := ((c.senderAttemptAt.lookup groupId).getD 0)
    if now - lastAttempt < SENDER_COOLDOWN_MS then (false, c, [])
    else
      let c1 : GroupCache := { c with senderAttemptAt := (groupId, now) :: c.senderAttemptAt }
      if send groupId then
        (true, { c1 with senderReadyGroups := groupId :: c1.senderReadyGroups },
         [⟨groupId, warmupText⟩])
      else (false, c1, [⟨groupId, warmupText⟩])

/-- `ensureGroupReady` of the early multi-device variant
(`src/unnamed/part_001`, lines 496-508): stateless — every call on a group
performs one warm-up send (`{ text: "✅" }`) and reports its outcome. -/
def ensureGroupReadyUncached (send : String → Bool) (groupId : String) :
    Bool × List PendingReply :=
  if !(jsEndsWith groupId "@g.us") then (true, [])
  else if send groupId then (true, [⟨groupId, "✅"⟩])
  else (false, [⟨groupId, "✅"⟩])

/-- The business-command handlers reachable from the dispatch chain, as
opaque labels. `fallback` is `handleMessage` (the generic `@`/`/` handler). -/
inductive Handler where
  | compra2
  | listar
  | remove
  | ban
  | pagamento
  | grupo
  | compra
  | concorrer
  | tabela
  | todos
  | fallback
deriving DecidableEq, Repr

/-- The first-match-wins command chain of `processMessage` (identical in all
variants), over the normalized lower-cased text.  `isGroup` is
`senderJid.endsWith("@g.us")`, consulted only by the `@concorrencia` arm. -/
def dispatch (isGroup : Bool) (lowerText : String) : Option Handler :=
  if jsStartsWith lowerText ".compra" then some .compra2
  else if lowerText == "@concorrentes" then some .listar
  else if jsStartsWith lowerText "@remove" || jsStartsWith lowerText "/remove" then some .remove
  else if jsStartsWith lowerText "@ban" || jsStartsWith lowerText "/ban" then some .ban
  else if lowerText == "@pagamentos" then some .pagamento
  else if (["@grupo on", "@grupo off"] : List String).contains lowerText then some .grupo
  else if jsStartsWith lowerText "@compra" || jsStartsWith lowerText "@rentanas"
          || jsStartsWith lowerText "@remove rentanas" then some .compra
  else if isGroup && lowerText == "@concorrencia" then some .concorrer
  else if lowerText == "@tabela" then some .tabela
  else if lowerText == "@todos" then some .todos
  else if jsStartsWith lowerText "@" || jsStartsWith lowerText "/" then some .fallback
  else if ([".n", ".t", ".i", ".s"] : List String).contains lowerText then some .tabela
  else none

/-- The generic user-visible error reply text of the catch block. -/
def errText : String := "❌ Ocorreu um erro ao processar sua solicitação."

/-- The informational reply queued for messages arriving before readiness
(backoff variant). -/
def waitText : String := "⏳ Bot iniciando, aguarde..."

/-- One inbound message, as consumed by `processMessage`: the conversation id
`msg.key.remoteJid`, the `fromMe` flag, the extracted text carrier and
whether an `imageMessage` payload is present. -/
structure MsgM where
  remoteJid : String
  fromMe : Bool
  text : String
  hasImage : Bool
deriving DecidableEq, Repr

/-- Failure oracles for the opaque collaborators of `processMessage`:
which handlers throw/reject, whether the side-channel handlers throw,
whether a direct `sock.sendMessage` of the error reply succeeds, and whether
the warm-up send of `ensureGroupReady` succeeds.  (`handleAntiLinkMessage`
runs in its own try/catch that only logs, so its outcome never shows in the
result and needs no oracle.) -/
structure ProcEnv where
  comprovanteThrows : Bool
  pixThrows : Bool
  handlerThrows : Handler → Bool
  sendOk : Bool
  warmupOk : Bool

/-- Effects of one `processMessage` invocation: the handler invoked by the
dispatch logic (if any), whether it was invoked through the group-not-ready
lightweight tabela fallback, the messages sent directly, the messages
appended to `pendingMessages`, whether an exception escaped the invocation,
and the group cache afterwards. -/
structure ProcResult where
  dispatched : Option Handler
  viaFallback : Bool
  sent : List PendingReply
  queued : List PendingReply
  escaped : Bool
  cache : GroupCache
deriving DecidableEq, Repr

/-- The catch block of the backoff variant's `processMessage` (lines
912-923): if `authReady`, try to send the generic error reply directly and
fall back to enqueueing it on failure; otherwise enqueue it.  Returns
(directly sent, enqueued). -/
def catchReply (authReady sendOk : Bool) (jid : String) :
    List PendingReply × List PendingReply :=
  if authReady then
    if sendOk then ([⟨jid, errText⟩], []) else ([], [⟨jid, errText⟩])
  else ([], [⟨jid, errText⟩])

/-- A `ProcResult` for a path that ended in the catch block before any
handler was dispatched. -/
def catchResult (authReady sendOk : Bool) (jid : String) (c : GroupCache) :
    ProcResult :=
  let r := catchReply authReady sendOk jid
  ⟨none, false, r.1, r.2, false, c⟩

/-- `lowerText === "@tabela" || ['.t','.n','.i','.s'].includes(lowerText)`:
the commands still executed while a group is not warm. -/
def isLightweight (lowerText : String) : Bool :=
  lowerText == "@tabela" || ([".t", ".n", ".i", ".s"] : List String).contains lowerText

/-- The tail of `processMessage`: run the first-match-wins chain; a throwing
handler is answered through the catch block, a successful one adds no
modelled effect. `warmSends` are the warm-up sends already attempted. -/
def runDispatch (env : ProcEnv) (authReady : Bool) (jid : String)
    (isGroup : Bool) (lowerText : String) (warmSends : List PendingReply)
    (c : GroupCache) : ProcResult :=
  match dispatch isGroup lowerText with
  | none => ⟨none, false, warmSends, [], false, c⟩
  | some h =>
    if env.handlerThrows h then
      let r := catchReply authReady env.sendOk jid
      ⟨some h, false, warmSends ++ r.1, r.2, false, c⟩
    else ⟨some h, false, warmSends, [], false, c⟩

/-- `processMessage` of the backoff variant (`src/unnamed/part_001`, lines
859-924): side-channel handlers first (a throw lands in the catch block),
then the group warm-up gate with the lightweight tabela fallback, then the
command chain. -/
def processMessageM (env : ProcEnv) (authReady : Bool) (c : GroupCache)
    (now : Nat) (m : MsgM) : ProcResult :=
  let jid := m.remoteJid
  let lowerText := normalizeText m.text
  let isGroup := jsEndsWith jid "@g.us"
  if (m.hasImage && isGroup) && env.comprovanteThrows then
    catchResult authReady env.sendOk jid c
  else if env.pixThrows then
    catchResult authReady env.sendOk jid c
  else if isGroup then
    let gate := ensureGroupReady (fun _ => env.warmupOk) c jid now
    if !gate.1 && isLightweight lowerText then
      -- `handleTabela(sock, msg, { fallbackTextOnly: true })`, retried plain
      -- on failure; a second failure is only logged — then `return`.
      ⟨some .tabela, true, gate.2.2, [], false, gate.2.1⟩
    else runDispatch env authReady jid true lowerText gate.2.2 gate.2.1
  else runDispatch env authReady jid false lowerText [] c

/-- Effects of one `messages.upsert` event. -/
structure UpsertResult where
  dispatched : Option Handler
  sent : List PendingReply
  queued : List PendingReply
  escaped : Bool
  cache : GroupCache
deriving DecidableEq, Repr

/-- The `messages.upsert` handler of the backoff variant (lines 926-942):
an empty batch returns; only `messages[0]` is examined; own messages return;
while `authReady` is false the fixed `waitText` reply is queued for the
sender and nothing else happens; otherwise the message is processed. -/
def messagesUpsert (env : ProcEnv) (authReady : Bool) (c : GroupCache)
    (now : Nat) (batch : List MsgM) : UpsertResult :=
  match batch with
  | [] => ⟨none, [], [], false, c⟩
  | m :: _ =>
    if m.fromMe then ⟨none, [], [], false, c⟩
    else if !authReady then
      ⟨none, [], [⟨m.remoteJid, waitText⟩], false, c⟩
    else
      let r := processMessageM env authReady c now m
      ⟨r.dispatched, r.sent, r.queued, r.escaped, r.cache⟩

/-- Sequential processing of a list of inbound messages, each through
`processMessageM`, threading the group cache. -/
def processSeq (env : ProcEnv) (authReady : Bool) :
    GroupCache → Nat → List MsgM → List ProcResult
  | _, _, [] => []
  | c, now, m :: ms =>
    let r := processMessageM env authReady c now m
    r :: processSeq env authReady r.cache now ms

/-- Occurrences of the generic error reply addressed to `jid` in a list of
outbound messages. -/
def errReplies (jid : String) (l : List PendingReply) : Nat :=
  l.countP fun p => p.jid == jid && p.payload == errText

/-! Concrete scenario inputs used by counterexamples and witnesses. -/

/-- Delivery oracle under which every send succeeds. -/
def deliverAll : PendingReply → Bool := fun _ => true

/-- A non-logout closure event (Boom status 408, connection timed out). -/
def closeTransient : ConnUpdate := ⟨some .closed, some 408, false⟩

/-- A logout closure event. -/
def logoutClose : ConnUpdate := ⟨some .closed, some loggedOutCode, false⟩

/-- An update carrying only a scan-required (`qr`) signal. -/
def qrOnly : ConnUpdate := ⟨none, none, true⟩

/-- An update whose connection state is `"open"`. -/
def openUpdate : ConnUpdate := ⟨some .opened, none, false⟩

/-- The supervisor state right after a fresh start. -/
def freshSupState : SupState := ⟨[], false, false, 0, true⟩

/-- A supervisor state mid-retry: 5 failed attempts, no QR emitted yet. -/
def midRetryState : SupState := ⟨[], false, false, 5, true⟩

/-- A supervisor state with two replies buffered, just before open. -/
def queuedState : SupState :=
  ⟨[⟨"a@s.whatsapp.net", "m1"⟩, ⟨"b@s.whatsapp.net", "m2"⟩], false, true, 3, true⟩

/-- A fresh telao3 state. -/
def freshT3State : T3State := ⟨[], false, true⟩

/-- Per-event action lists of the backoff supervisor across 11 consecutive
non-logout closures from a fresh start, no open ever reached. -/
def elevenClosures : List (List SupAction) :=
  (runConn deliverAll freshSupState (List.replicate 11 closeTransient)).2

/-- An empty group readiness cache. -/
def emptyCache : GroupCache := ⟨[], []⟩

/-- A cache recording a warm-up attempt for `"123@g.us"` at time 100 that
did not succeed (the group is not in the ready set). -/
def cooldownCache : GroupCache := ⟨[], [("123@g.us", 100)]⟩

/-- Oracles under which nothing throws and every send succeeds. -/
def envOk : ProcEnv := ⟨false, false, fun _ => false, true, true⟩

/-- Oracles under which exactly the tabela handler throws. -/
def envTabelaThrows : ProcEnv :=
  ⟨false, false, (fun h => match h with | .tabela => true | _ => false), true, true⟩

/-- A plain direct-chat text message. -/
def helloMsg : MsgM := ⟨"258840000000@s.whatsapp.net", false, "hello", false⟩

/-- A `@tabela` command arriving from a group conversation. -/
def tabelaGroupMsg : MsgM := ⟨"123@g.us", false, "@tabela", false⟩

/-- Oracles under which every handler throws. -/
def envAllThrow : ProcEnv := ⟨false, false, fun _ => true, true, true⟩

/-- A `.compra` command arriving from a direct chat. -/
def compraMsg : MsgM := ⟨"258840000000@s.whatsapp.net", false, ".compra abc", false⟩

/-! Helper lemmas shared by several claim theorems. -/

theorem flushT3_fst (d : PendingReply → Bool) (q : List PendingReply) :
    (processPendingMessagesT3 d q).1.map Prod.fst = q := by
  simp [processPendingMessagesT3, Function.comp_def]

theorem flushT3_snd (d : PendingReply → Bool) (q : List PendingReply) :
    (processPendingMessagesT3 d q).2 = [] := rfl

theorem flush_fst (d : PendingReply → Bool) (q : List PendingReply) :
    (processPendingMessages d q).1.map Prod.fst = q := by
  unfold processPendingMessages
  split
  · exact flushT3_fst d q
  · next h =>
    simp only [not_lt, Nat.le_zero, List.length_eq_zero] at h
    simp [h]

theorem flush_snd (d : PendingReply → Bool) (q : List PendingReply) :
    (processPendingMessages d q).2 = [] := by
  unfold processPendingMessages
  split
  · rfl
  · next h =>
    simp only [not_lt, Nat.le_zero, List.length_eq_zero] at h
    simp [h]

theorem filterMap_some_fst (l : List (PendingReply × Bool)) :
    List.filterMap (fun p : PendingReply × Bool => some p.1) l =
      l.map Prod.fst := by
  induction l with
  | nil => rfl
  | cons a t ih => simp [List.filterMap_cons, ih]

theorem countP_isEmitQR_attemptSends (l : List (PendingReply × Bool)) :
    (l.map fun p => SupAction.attemptSend p.1).countP SupAction.isEmitQR = 0 := by
  induction l with
  | nil => rfl
  | cons a t ih => simp [SupAction.isEmitQR, List.countP_cons, ih]

/-- C1: at the open transition, the flush attempts delivery of every queued
entry exactly once, in FIFO insertion order (the attempted entries are the
queue itself), per-item failures are dropped rather than re-enqueued, and the
queue is empty afterwards.  Proved for both flush variants and for the open
branch of the backoff supervisor, whose attempted sends are exactly the
buffered replies in order. -/
theorem C1_flush_fifo_exactly_once (d : PendingReply → Bool)
    (q : List PendingReply) (st : SupState) (u : ConnUpdate)
    (ho : u.connection = some ConnState.opened) :
    ((processPendingMessages d q).1.map Prod.fst = q ∧
     (processPendingMessages d q).2 = []) ∧
    ((processPendingMessagesT3 d q).1.map Prod.fst = q ∧
     (processPendingMessagesT3 d q).2 = []) ∧
    ((connectionUpdateBackoff d st u).1.pendingMessages = [] ∧
     (connectionUpdateBackoff d st u).2.filterMap SupAction.sendOf =
       st.pendingMessages) := by
  refine ⟨⟨flush_fst d q, flush_snd d q⟩, ⟨flushT3_fst d q, flushT3_snd d q⟩, ?_⟩
  unfold connectionUpdateBackoff
  rw [ho]
  split <;>
    simp [List.filterMap_append, Function.comp_def, SupAction.sendOf,
      filterMap_some_fst, flush_fst, flush_snd]

/-- C1 witness: flushing a two-entry queue at an open transition. -/
theorem C1_witness :
    openUpdate.connection = some ConnState.opened ∧
    ((connectionUpdateBackoff deliverAll queuedState openUpdate).1.pendingMessages = [] ∧
     (connectionUpdateBackoff deliverAll queuedState openUpdate).2.filterMap
       SupAction.sendOf = queuedState.pendingMessages) :=
  ⟨rfl, (C1_flush_fifo_exactly_once deliverAll [] queuedState openUpdate rfl).2.2⟩

/-- C2 counterexample: the attempt counter is NOT reset "exactly when the
session reaches the open state" — a scan-required (`qr`) signal arriving
with the guard unarmed also resets it (`src/unnamed/part_001`, line 777).
From 5 accumulated attempts, a qr-only update (whose connection state is not
open) drives the counter back to 0. -/
theorem C2_counterexample :
    midRetryState.reconnectAttempts = 5 ∧
    qrOnly.connection ≠ some ConnState.opened ∧
    (connectionUpdateBackoff deliverAll midRetryState qrOnly).1.reconnectAttempts = 0 := by
  decide

/-- C2 (amended): over 11 consecutive non-logout closures from a fresh start
with the session never reaching open, each of the first 10 events schedules a
reconnect and none exits; the 11th event (the failure of the 10th retry)
exits the process with code 1.  The attempt counter is reset to zero
whenever the session reaches open — and additionally on a logout closure and
on the first scan-required signal of a session instance. -/
theorem C2_amended_retry_ceiling :
    (∀ i, i < 10 →
      (elevenClosures.getD i []).countP SupAction.isExit = 0 ∧
      (elevenClosures.getD i []).countP SupAction.isSchedule = 1) ∧
    elevenClosures.getD 10 [] = [SupAction.exitProcess 1] ∧
    (∀ (d : PendingReply → Bool) (st : SupState) (u : ConnUpdate),
      u.connection = some ConnState.opened →
      (connectionUpdateBackoff d st u).1.reconnectAttempts = 0) ∧
    (∀ (d : PendingReply → Bool) (st : SupState) (u : ConnUpdate),
      u.connection = some ConnState.closed →
      u.closeReason = some loggedOutCode →
      (connectionUpdateBackoff d st u).1.reconnectAttempts = 0) ∧
    (∀ (d : PendingReply → Bool) (st : SupState) (u : ConnUpdate),
      u.qr = true → st.qrSent = false → u.connection = none →
      (connectionUpdateBackoff d st u).1.reconnectAttempts = 0) := by
  refine ⟨by decide, by decide, ?_, ?_, ?_⟩
  · intro d st u ho
    unfold connectionUpdateBackoff
    rw [ho]
  · intro d st u hc hl
    unfold connectionUpdateBackoff
    rw [hc, hl]
    simp
  · intro d st u hq hs hn
    unfold connectionUpdateBackoff
    rw [hn, hq, hs]
    rfl

/-- C2 witness: the amended theorem applied at concrete inputs — the first
closure schedules (does not exit), the 11th exits with code 1, and an open
update resets the counter from 5 to 0. -/
theorem C2_amended_witness :
    ((elevenClosures.getD 0 []).countP SupAction.isExit = 0 ∧
     (elevenClosures.getD 0 []).countP SupAction.isSchedule = 1) ∧
    elevenClosures.getD 10 [] = [SupAction.exitProcess 1] ∧
    (connectionUpdateBackoff deliverAll midRetryState openUpdate).1.reconnectAttempts = 0 :=
  ⟨C2_amended_retry_ceiling.1 0 (by decide),
   C2_amended_retry_ceiling.2.1,
   C2_amended_retry_ceiling.2.2.1 deliverAll midRetryState openUpdate rfl⟩

/-- C3 counterexample: the telao3 variant schedules every non-logout
reconnect after a flat 3000 ms, which differs from
`min(5000 * 1.5^(attempts-1), 30000)` at the first attempt (5000 ms) — so
the exponential-backoff formula does not hold for every non-logout closure
of the repository. -/
theorem C3_counterexample :
    connectionUpdateTelao3 deliverAll freshT3State closeTransient =
      (freshT3State, [SupAction.scheduleRestart 3000]) ∧
    (3000 : ℚ) ≠ min (5000 * ((3 : ℚ) / 2) ^ (1 - 1 : Nat)) 30000 := by
  constructor
  · rfl
  · norm_num

/-- C3 (amended): in the backoff variant, every non-logout closure below the
retry ceiling schedules its reconnect after exactly
`min(5000 * 1.5^(attempts-1), 30000)` ms for the post-increment attempt
count; the delay is non-decreasing in the attempt count and never exceeds
the 30000 ms cap.  The telao3 variant instead uses a flat 3000 ms delay. -/
theorem C3_amended_backoff_delay (d : PendingReply → Bool) (st : SupState)
    (u : ConnUpdate)
    (hc : u.connection = some ConnState.closed)
    (hq : u.qr = false)
    (hnl : u.closeReason ≠ some loggedOutCode)
    (hcap : st.reconnectAttempts + 1 ≤ MAX_RECONNECT_ATTEMPTS) :
    (connectionUpdateBackoff d st u).2 =
      [SupAction.scheduleRestart
        (min (5000 * ((3 : ℚ) / 2) ^ st.reconnectAttempts) 30000)] ∧
    (∀ m n : ℕ, m ≤ n → reconnectDelay m ≤ reconnectDelay n) ∧
    (∀ n : ℕ, reconnectDelay n ≤ 30000) ∧
    (∀ (st' : T3State) (u' : ConnUpdate),
      u'.connection = some ConnState.closed →
      u'.closeReason ≠ some loggedOutCode → u'.qr = false →
      (connectionUpdateTelao3 d st' u').2 = [SupAction.scheduleRestart 3000]) := by
  refine ⟨?_, ?_, fun n => min_le_right _ _, ?_⟩
  · unfold connectionUpdateBackoff
    rw [hc]
    simp only [hq, Bool.false_and, Bool.false_eq_true, if_neg, ite_false]
    rw [if_neg hnl, if_neg (by omega)]
    simp [reconnectDelay, RECONNECT_DELAY]
  · intro m n h
    unfold reconnectDelay
    refine min_le_min ?_ le_rfl
    exact mul_le_mul_of_nonneg_left
      (pow_le_pow_right₀ (by norm_num) (Nat.sub_le_sub_right h 1))
      (by norm_num [RECONNECT_DELAY])
  · intro st' u' hc' hnl' hq'
    unfold connectionUpdateTelao3
    rw [hc']
    simp [hq', if_neg hnl']

/-- C3 witness: the amended theorem at a fresh state — the first retry is
scheduled after `min(5000 * 1.5^0, 30000)` ms. -/
theorem C3_amended_witness :
    closeTransient.connection = some ConnState.closed ∧
    closeTransient.qr = false ∧
    closeTransient.closeReason ≠ some loggedOutCode ∧
    freshSupState.reconnectAttempts + 1 ≤ MAX_RECONNECT_ATTEMPTS ∧
    (connectionUpdateBackoff deliverAll freshSupState closeTransient).2 =
      [SupAction.scheduleRestart
        (min (5000 * ((3 : ℚ) / 2) ^ (0 : Nat)) 30000)] :=
  ⟨rfl, rfl, by decide, by decide,
   (C3_amended_backoff_delay deliverAll freshSupState closeTransient rfl rfl
     (by decide) (by decide)).1⟩

/-- C4 counterexample: in the telao3 variant a logout closure calls
`process.exit(0)` — the state (including the still-present credential
folder) is untouched, the attempt counter is not reset, and no next start is
scheduled, contradicting the claim for that variant. -/
theorem C4_counterexample :
    connectionUpdateTelao3 deliverAll freshT3State logoutClose =
      (freshT3State, [SupAction.exitProcess 0]) ∧
    freshT3State.credsPresent = true ∧
    (SupAction.exitProcess 0).isSchedule = false := by
  decide

/-- C4 (amended): in the backoff variant every logout closure discards the
local credential folder, resets the attempt counter to zero and schedules
the next start after a fixed 3000 ms — strictly shorter than any backoff
delay, so the backoff is bypassed — without exiting; the new session
instance only arises from the scheduled start.  In the telao3 variant a
logout closure instead exits the process with code 0. -/
theorem C4_amended_logout (d : PendingReply → Bool) (st : SupState)
    (u : ConnUpdate)
    (hc : u.connection = some ConnState.closed)
    (hl : u.closeReason = some loggedOutCode) :
    (connectionUpdateBackoff d st u).1.credsPresent = false ∧
    (connectionUpdateBackoff d st u).1.reconnectAttempts = 0 ∧
    (connectionUpdateBackoff d st u).2.getLast? =
      some (SupAction.scheduleRestart 3000) ∧
    (connectionUpdateBackoff d st u).2.countP SupAction.isExit = 0 ∧
    (∀ n : ℕ, (3000 : ℚ) < reconnectDelay n) := by
  have hbranch : connectionUpdateBackoff d st u =
      ((connectionUpdateBackoff d st u).1,
        (if (u.qr && !st.qrSent) = true then [SupAction.emitQRCode] else []) ++
          [SupAction.scheduleRestart 3000]) := by
    unfold connectionUpdateBackoff
    rw [hc, hl]
    simp
  refine ⟨?_, ?_, ?_, ?_, ?_⟩
  · unfold connectionUpdateBackoff
    rw [hc, hl]
    simp
  · unfold connectionUpdateBackoff
    rw [hc, hl]
    simp
  · rw [show (connectionUpdateBackoff d st u).2 = _ from congrArg Prod.snd hbranch]
    exact List.getLast?_concat _
  · rw [show (connectionUpdateBackoff d st u).2 = _ from congrArg Prod.snd hbranch]
    split <;> simp [List.countP_cons, SupAction.isExit]
  · intro n
    have h1 : (1 : ℚ) ≤ ((3 : ℚ) / 2) ^ (n - 1) := one_le_pow₀ (by norm_num)
    unfold reconnectDelay
    refine lt_min ?_ (by norm_num)
    calc (3000 : ℚ) < 5000 * 1 := by norm_num
    _ ≤ RECONNECT_DELAY * ((3 : ℚ) / 2) ^ (n - 1) :=
      mul_le_mul_of_nonneg_left h1 (by norm_num [RECONNECT_DELAY])

/-- C4 witness: a logout closure arriving at a mid-retry state. -/
theorem C4_amended_witness :
    logoutClose.connection = some ConnState.closed ∧
    logoutClose.closeReason = some loggedOutCode ∧
    (connectionUpdateBackoff deliverAll midRetryState logoutClose).1.credsPresent = false ∧
    (connectionUpdateBackoff deliverAll midRetryState logoutClose).1.reconnectAttempts = 0 ∧
    (connectionUpdateBackoff deliverAll midRetryState logoutClose).2.getLast? =
      some (SupAction.scheduleRestart 3000) :=
  ⟨rfl, rfl,
   (C4_amended_logout deliverAll midRetryState logoutClose rfl rfl).1,
   (C4_amended_logout deliverAll midRetryState logoutClose rfl rfl).2.1,
   (C4_amended_logout deliverAll midRetryState logoutClose rfl rfl).2.2.1⟩

/-- C8 counterexample: the telao3 variant has no `qrSent` guard — two
scan-required signals in a row within the same session instance are both
emitted. -/
theorem C8_counterexample :
    (connectionUpdateTelao3 deliverAll freshT3State qrOnly).2.countP
        SupAction.isEmitQR +
      (connectionUpdateTelao3 deliverAll
          (connectionUpdateTelao3 deliverAll freshT3State qrOnly).1
          qrOnly).2.countP SupAction.isEmitQR = 2 := by
  decide

/-- C8 (amended): in the guarded variants (part_000 and both part_001
variants) the credential-scan code is emitted at most once per session
instance — the first signal with the guard unarmed emits once and latches
`qrSent`; with `qrSent` latched any further signal emits nothing and leaves
the guard latched; and a new session instance re-arms emission by clearing
`qrSent`.  The telao3 variant emits on every signal. -/
theorem C8_amended_qr_once (d : PendingReply → Bool) (st : SupState)
    (u : ConnUpdate) (h1 : st.qrSent = false) (h2 : u.qr = true) :
    (connectionUpdateBackoff d st u).2.countP SupAction.isEmitQR = 1 ∧
    (connectionUpdateBackoff d st u).1.qrSent = true ∧
    (∀ (st' : SupState) (v : ConnUpdate), st'.qrSent = true →
      (connectionUpdateBackoff d st' v).2.countP SupAction.isEmitQR = 0 ∧
      (connectionUpdateBackoff d st' v).1.qrSent = true) ∧
    (∀ st' : SupState, (iniciarBotQrReset st').qrSent = false) := by
  refine ⟨?_, ?_, ?_, fun _ => rfl⟩
  · unfold connectionUpdateBackoff
    rw [h1, h2]
    rcases hc : u.connection with _ | c
    · simp [SupAction.isEmitQR]
    · rcases c <;> (repeat' split) <;>
        simp_all [SupAction.isEmitQR, List.countP_append, List.countP_cons,
          countP_isEmitQR_attemptSends, MAX_RECONNECT_ATTEMPTS]
  · unfold connectionUpdateBackoff
    rw [h1, h2]
    rcases hc : u.connection with _ | c
    · rfl
    · rcases c <;> (repeat' split) <;> simp_all [MAX_RECONNECT_ATTEMPTS]
  · intro st' v hv
    unfold connectionUpdateBackoff
    rw [hv]
    rcases hc : v.connection with _ | c
    · simp [hv, SupAction.isEmitQR]
    · rcases c <;> (repeat' split) <;>
        (simp_all [SupAction.isEmitQR, List.countP_append, List.countP_cons,
          countP_isEmitQR_attemptSends, MAX_RECONNECT_ATTEMPTS];
         repeat' split) <;> simp [SupAction.isEmitQR]

/-- C8 witness: a first scan signal emits once; a second one right after is
suppressed; a fresh instance re-arms the guard. -/
theorem C8_amended_witness :
    freshSupState.qrSent = false ∧ qrOnly.qr = true ∧
    (connectionUpdateBackoff deliverAll freshSupState qrOnly).2.countP
      SupAction.isEmitQR = 1 ∧
    (connectionUpdateBackoff deliverAll
        (connectionUpdateBackoff deliverAll freshSupState qrOnly).1
        qrOnly).2.countP SupAction.isEmitQR = 0 ∧
    (iniciarBotQrReset
      (connectionUpdateBackoff deliverAll freshSupState qrOnly).1).qrSent = false :=
  ⟨rfl, rfl,
   (C8_amended_qr_once deliverAll freshSupState qrOnly rfl rfl).1,
   ((C8_amended_qr_once deliverAll freshSupState qrOnly rfl rfl).2.2.1
     (connectionUpdateBackoff deliverAll freshSupState qrOnly).1 qrOnly
     (C8_amended_qr_once deliverAll freshSupState qrOnly rfl rfl).2.1).1,
   (C8_amended_qr_once deliverAll freshSupState qrOnly rfl rfl).2.2.2
     (connectionUpdateBackoff deliverAll freshSupState qrOnly).1⟩

/-- C5 counterexample: the uncached `ensureGroupReady` variant is stateless,
so a warm-up send is performed on EVERY call for a group conversation — two
calls in (trivially) the same 60-unit window perform two sends, and after a
successful warm-up the next call still performs a send while returning true,
contradicting the claim for that variant. -/
theorem C5_counterexample :
    (ensureGroupReadyUncached (fun _ => true) "123@g.us").1 = true ∧
    (ensureGroupReadyUncached (fun _ => true) "123@g.us").2.length = 1 ∧
    ((ensureGroupReadyUncached (fun _ => true) "123@g.us").2 ++
      (ensureGroupReadyUncached (fun _ => true) "123@g.us").2).length = 2 := by
  decide

/-- C5 (amended): for the cached `ensureGroupReady` of the backoff variant:
non-group conversations always report ready with no send; a conversation in
the ready set returns true with no send and an unchanged cache; the ready
set only grows (once ready, never reset); any call that performs a send
records its timestamp; a call within the 60-unit cooldown window of the
recorded attempt performs no send, and returns false with an unchanged
cache when the conversation is a not-yet-ready group; and a call returning
true for a group leaves the conversation in the ready set.  The uncached
early variant performs a send on every group call. -/
theorem C5_amended_readiness_cache (send : String → Bool) (c : GroupCache)
    (g : String) (now : Nat) :
    (jsEndsWith g "@g.us" = false → ensureGroupReady send c g now = (true, c, [])) ∧
    (c.senderReadyGroups.contains g = true →
      ensureGroupReady send c g now = (true, c, [])) ∧
    (∀ g', c.senderReadyGroups.contains g = true →
      (ensureGroupReady send c g' now).2.1.senderReadyGroups.contains g = true) ∧
    ((ensureGroupReady send c g now).2.2 ≠ [] →
      (ensureGroupReady send c g now).2.1.senderAttemptAt.lookup g = some now) ∧
    (∀ t now', c.senderAttemptAt.lookup g = some t →
      now' - t < SENDER_COOLDOWN_MS →
      (ensureGroupReady send c g now').2.2 = [] ∧
      (c.senderReadyGroups.contains g = false → jsEndsWith g "@g.us" = true →
        ensureGroupReady send c g now' = (false, c, []))) ∧
    (jsEndsWith g "@g.us" = true → (ensureGroupReady send c g now).1 = true →
      (ensureGroupReady send c g now).2.1.senderReadyGroups.contains g = true) := by
  refine ⟨?_, ?_, ?_, ?_, ?_, ?_⟩
  · intro hg
    unfold ensureGroupReady
    simp [hg]
  · intro hr
    unfold ensureGroupReady
    split_ifs <;> simp_all
  · intro g' hr
    unfold ensureGroupReady
    dsimp only
    split_ifs <;> simp_all
  · unfold ensureGroupReady
    dsimp only
    split_ifs <;> simp_all [List.lookup]
  · intro t now' hl hw
    constructor
    · unfold ensureGroupReady
      dsimp only
      split_ifs <;> simp_all
    · intro hnr hg
      unfold ensureGroupReady
      dsimp only
      split_ifs <;> simp_all
  · intro hg
    unfold ensureGroupReady
    dsimp only
    split_ifs <;> simp_all

/-- C5 witness: a non-group conversation reports ready with no send, and a
group already in the ready set returns true with no send and no cache
change. -/
theorem C5_amended_witness :
    ensureGroupReady (fun _ => true) emptyCache "258840000000@s.whatsapp.net" 0 =
      (true, emptyCache, []) ∧
    ensureGroupReady (fun _ => true) ⟨["123@g.us"], []⟩ "123@g.us" 0 =
      (true, ⟨["123@g.us"], []⟩, []) :=
  ⟨(C5_amended_readiness_cache (fun _ => true) emptyCache
      "258840000000@s.whatsapp.net" 0).1 (by decide),
   (C5_amended_readiness_cache (fun _ => true) ⟨["123@g.us"], []⟩
      "123@g.us" 0).2.1 (by decide)⟩

/-- C6: first-match-wins dispatch over the normalized lower-cased text:
`"@TABELA"` reaches the tabela handler (case-insensitively),
`".compra abc"` the compra2 handler, `"@grupo on"` the group handler, and
the unmatched `"hello"` reaches no handler — and its full processing leaves
every effect empty (nothing sent, nothing queued, cache untouched). -/
theorem C6_router_dispatch :
    dispatch false (normalizeText "@TABELA") = some Handler.tabela ∧
    dispatch false (normalizeText ".compra abc") = some Handler.compra2 ∧
    dispatch false (normalizeText "@grupo on") = some Handler.grupo ∧
    dispatch false (normalizeText "hello") = none ∧
    processMessageM envOk true emptyCache 0 helloMsg =
      ⟨none, false, [], [], false, emptyCache⟩ := by
  decide

theorem errReplies_append (jid : String) (x y : List PendingReply) :
    errReplies jid (x ++ y) = errReplies jid x + errReplies jid y :=
  List.countP_append _ _ _

theorem errReplies_catch (a s : Bool) (jid : String) :
    errReplies jid ((catchReply a s jid).1 ++ (catchReply a s jid).2) = 1 := by
  unfold catchReply errReplies
  split_ifs <;> simp

theorem errReplies_warmup (send : String → Bool) (c : GroupCache) (g : String)
    (now : Nat) (jid : String) :
    errReplies jid (ensureGroupReady send c g now).2.2 = 0 := by
  unfold ensureGroupReady errReplies
  dsimp only
  split_ifs <;>
    simp [show (warmupText == errText) = false from by decide]

theorem runDispatch_throws (env : ProcEnv) (a : Bool) (jid : String)
    (isG : Bool) (lt : String) (ws : List PendingReply) (c : GroupCache)
    (h : Handler)
    (hd : (runDispatch env a jid isG lt ws c).dispatched = some h)
    (ht : env.handlerThrows h = true)
    (hw : errReplies jid ws = 0) :
    errReplies jid ((runDispatch env a jid isG lt ws c).sent ++
      (runDispatch env a jid isG lt ws c).queued) = 1 := by
  unfold runDispatch at hd ⊢
  rcases hdisp : dispatch isG lt with _ | h'
  · rw [hdisp] at hd
    simp at hd
  · rw [hdisp] at hd
    dsimp only at hd ⊢
    by_cases hth : env.handlerThrows h' = true
    · simp only [hth, if_true]
      rw [List.append_assoc, errReplies_append]
      rw [hw, errReplies_catch]
    · simp [hth] at hd
      rw [hd] at hth
      exact absurd ht hth

theorem runDispatch_escaped (env : ProcEnv) (a : Bool) (jid : String)
    (isG : Bool) (lt : String) (ws : List PendingReply) (c : GroupCache) :
    (runDispatch env a jid isG lt ws c).escaped = false := by
  unfold runDispatch
  rcases dispatch isG lt with _ | h'
  · rfl
  · dsimp only
    split <;> rfl

theorem processMessageM_escaped (env : ProcEnv) (a : Bool) (c : GroupCache)
    (now : Nat) (m : MsgM) :
    (processMessageM env a c now m).escaped = false := by
  unfold processMessageM
  dsimp only
  split_ifs <;>
    first
      | rfl
      | exact runDispatch_escaped _ _ _ _ _ _ _

theorem processSeq_length (env : ProcEnv) (a : Bool) (c : GroupCache)
    (now : Nat) (msgs : List MsgM) :
    (processSeq env a c now msgs).length = msgs.length := by
  induction msgs generalizing c with
  | nil => rfl
  | cons m ms ih => simp [processSeq, ih]

/-- C7 counterexample: in the backoff variant, a `@tabela` command from a
group inside its warm-up cooldown window is handled through the lightweight
fallback, whose failures are only logged — so when the tabela handler
throws, NO generic error reply is queued or sent for that message,
contradicting the claim's "exactly one". -/
theorem C7_counterexample :
    (processMessageM envTabelaThrows true cooldownCache 100 tabelaGroupMsg).dispatched =
      some Handler.tabela ∧
    envTabelaThrows.handlerThrows Handler.tabela = true ∧
    errReplies tabelaGroupMsg.remoteJid
      ((processMessageM envTabelaThrows true cooldownCache 100 tabelaGroupMsg).sent ++
       (processMessageM envTabelaThrows true cooldownCache 100 tabelaGroupMsg).queued) = 0 := by
  decide

/-- C7 (amended): when the dispatched handler throws outside the group
not-ready lightweight tabela fallback, exactly one generic error reply is
queued or sent to the originating conversation; no fault ever escapes
`processMessage` (for any oracles and any message); and a sequence of
inbound messages is always processed in full, one result per message.
Inside the lightweight fallback a throwing handler is only logged, with no
user-visible reply. -/
theorem C7_amended_fault_isolation (env : ProcEnv) (a : Bool) (c : GroupCache)
    (now : Nat) (m : MsgM) (h : Handler)
    (hd : (processMessageM env a c now m).dispatched = some h)
    (hf : (processMessageM env a c now m).viaFallback = false)
    (ht : env.handlerThrows h = true) :
    errReplies m.remoteJid ((processMessageM env a c now m).sent ++
      (processMessageM env a c now m).queued) = 1 ∧
    (∀ (env' : ProcEnv) (a' : Bool) (c' : GroupCache) (now' : Nat) (m' : MsgM),
      (processMessageM env' a' c' now' m').escaped = false) ∧
    (∀ (env' : ProcEnv) (a' : Bool) (c' : GroupCache) (now' : Nat)
      (msgs : List MsgM),
      (processSeq env' a' c' now' msgs).length = msgs.length) := by
  refine ⟨?_, fun env' a' c' now' m' => processMessageM_escaped env' a' c' now' m',
    fun env' a' c' now' msgs => processSeq_length env' a' c' now' msgs⟩
  unfold processMessageM at hd hf ⊢
  dsimp only at hd hf ⊢
  split_ifs at hd hf ⊢
  all_goals
    first
      | simp [catchResult] at hd
      | simp at hf
      | exact runDispatch_throws _ _ _ _ _ _ _ h hd ht (errReplies_warmup _ _ _ _ _)
      | exact runDispatch_throws _ _ _ _ _ _ _ h hd ht rfl

/-- C7 witness: a throwing `.compra` handler on a direct chat produces
exactly one generic error reply. -/
theorem C7_amended_witness :
    (processMessageM envAllThrow true emptyCache 0 compraMsg).dispatched =
      some Handler.compra2 ∧
    (processMessageM envAllThrow true emptyCache 0 compraMsg).viaFallback = false ∧
    envAllThrow.handlerThrows Handler.compra2 = true ∧
    errReplies compraMsg.remoteJid
      ((processMessageM envAllThrow true emptyCache 0 compraMsg).sent ++
       (processMessageM envAllThrow true emptyCache 0 compraMsg).queued) = 1 :=
  ⟨by decide, by decide, rfl,
   (C7_amended_fault_isolation envAllThrow true emptyCache 0 compraMsg
      Handler.compra2 (by decide) (by decide) rfl).1⟩

/-- C9: a `messages.upsert` event examines only the first message of the
batch — its effects are identical to those on the one-element batch holding
that first message (every other message is discarded without dispatch,
queueing, or reply), and an empty batch has no effect at all. -/
theorem C9_first_of_batch (env : ProcEnv) (a : Bool) (c : GroupCache)
    (now : Nat) (m : MsgM) (rest : List MsgM) :
    messagesUpsert env a c now (m :: rest) = messagesUpsert env a c now [m] ∧
    messagesUpsert env a c now [] = ⟨none, [], [], false, c⟩ :=
  ⟨rfl, rfl⟩

/-- C10: a (non-self) message arriving while the session is not ready is
never dispatched to any handler; the only effect is one fixed informational
reply queued for the sender — and the effects do not depend on the message's
text at all, so the message itself cannot be routed later. -/
theorem C10_not_ready_queue_only (env : ProcEnv) (c : GroupCache) (now : Nat)
    (m : MsgM) (rest : List MsgM) (hm : m.fromMe = false) :
    messagesUpsert env false c now (m :: rest) =
      ⟨none, [], [⟨m.remoteJid, waitText⟩], false, c⟩ ∧
    (∀ t, messagesUpsert env false c now ({ m with text := t } :: rest) =
      messagesUpsert env false c now (m :: rest)) := by
  constructor
  · simp [messagesUpsert, hm]
  · intro t
    simp [messagesUpsert, hm]

/-- C10 witness: a plain text message arriving before readiness only queues
the fixed wait reply. -/
theorem C10_witness :
    helloMsg.fromMe = false ∧
    messagesUpsert envOk false emptyCache 0 [helloMsg] =
      ⟨none, [], [⟨helloMsg.remoteJid, waitText⟩], false, emptyCache⟩ :=
  ⟨rfl, (C10_not_ready_queue_only envOk emptyCache 0 helloMsg [] rfl).1⟩

end TP4
